import Mathlib

/- Shallow embedding of the SynapseBot airdrop automation tool.
   Pure logic is translated from the Python sources under src/; the
   external capabilities (browser driver, filesystem JSON store, OpenAI
   call, wall clock) are modelled as explicit inputs and explicit state. -/

/-- Python `str.lower()` restricted to ASCII, written over the character
list so that it evaluates by kernel reduction. -/
def strLower (s : String) : String :=
  ⟨s.data.map Char.toLower⟩

/-- Python substring containment on character lists: `needle in hay`. -/
def listContainsSeq [BEq α] (needle : List α) : List α → Bool
  | [] => needle.isEmpty
  | a :: t => needle.isPrefixOf (a :: t) || listContainsSeq needle t

/-- Python `needle in hay` for strings (no case folding here; callers
lower-case their arguments exactly where the source does). -/
def substrB (needle hay : String) : Bool :=
  listContainsSeq needle.data hay.data

/-- From src/src/airdrop.py, `AirdropManager.get_task_type`: lower-cases the
task text, then returns "visit" when the text contains both "visit" and
"airdrop page", else "telegram" when it contains "telegram", else "unknown". -/
def get_task_type (task_text : String) : String :=
  let t := strLower task_text
  if substrB "visit" t && substrB "airdrop page" t then "visit"
  else if substrB "telegram" t then "telegram"
  else "unknown"

/-- One scraped campaign card, as built by `get_available_airdrops`:
its displayed name plus the outcome the browser click on its element
would have (`BrowserManager.click` returns a boolean). -/
structure Airdrop where
  name : String
  clickOk : Bool
deriving DecidableEq, Repr

/-- From src/src/airdrop.py, `AirdropManager.select_airdrop`, as a function of
the completed-store keys, the optional requested name (Python truthiness:
`None` and the empty string both take the no-request branch) and the scraped
candidate list. Returns the selected name (or none) paired with the
completed-store keys, which the method never mutates. -/
def select_airdrop (completed : List String) (requested : Option String) :
    List Airdrop → Option String × List String
  | [] => (none, completed)
  | first :: rest =>
    let selected :=
      match requested with
      | some req =>
        if req = "" then first
        else
          match List.find? (fun (a : Airdrop) => substrB (strLower req) (strLower a.name)) (first :: rest) with
          | some a => a
          | none => first
      | none => first
    if completed.contains selected.name then (none, completed)
    else if selected.clickOk then (some selected.name, completed)
    else (none, completed)


/-- Wall-clock fields as consumed by time.strftime. -/
structure Tm where
  year : Nat
  month : Nat
  day : Nat
  hour : Nat
  minute : Nat
  second : Nat
deriving DecidableEq, Repr

/-- Two-digit zero-padded decimal field, as %m, %d, %H, %M and %S print
in-range values. -/
def pad2 (n : Nat) : List Char :=
  [Nat.digitChar (n / 10 % 10), Nat.digitChar (n % 10)]

/-- Four-digit zero-padded decimal field, as %Y prints years up to 9999. -/
def pad4 (n : Nat) : List Char :=
  [Nat.digitChar (n / 1000 % 10), Nat.digitChar (n / 100 % 10),
   Nat.digitChar (n / 10 % 10), Nat.digitChar (n % 10)]

/-- Python time.strftime with format string "%Y-%m-%d %H:%M:%S", the form
used by mark_airdrop_completed in src/src/utils/helpers.py. -/
def strftimeYmdHMS (t : Tm) : String :=
  ⟨pad4 t.year ++ '-' :: pad2 t.month ++ '-' :: pad2 t.day ++ ' ' :: pad2 t.hour
    ++ ':' :: pad2 t.minute ++ ':' :: pad2 t.second⟩

/-- A well-formed store timestamp: exactly the shape dddd-dd-dd dd:dd:dd
with every d a decimal digit. -/
def isWellFormedTimestamp (s : String) : Bool :=
  match s.data with
  | [y1, y2, y3, y4, p1, a1, a2, p2, b1, b2, sp, c1, c2, q1, d1, d2, q2, e1, e2] =>
    y1.isDigit && y2.isDigit && y3.isDigit && y4.isDigit && p1 == '-' &&
    a1.isDigit && a2.isDigit && p2 == '-' && b1.isDigit && b2.isDigit &&
    sp == ' ' && c1.isDigit && c2.isDigit && q1 == ':' && d1.isDigit && d2.isDigit &&
    q2 == ':' && e1.isDigit && e2.isDigit
  | _ => false

/-- A persisted completion record: the value stored under a campaign name. -/
structure CompletionRecord where
  completed_date : String
  status : String
deriving DecidableEq, Repr

/-- The JSON document backing the completion store, as the loader can find
it: missing, present but unparseable, or a parsed object. -/
inductive FileContent
  | absent
  | malformed
  | valid (m : List (String × CompletionRecord))
deriving DecidableEq, Repr

/-- The faults the persistence layer can raise before any handler runs. -/
inductive PyError
  | fileNotFound
  | jsonDecodeError
deriving DecidableEq, Repr

/-- os.path.exists on the store file. -/
def os_path_exists : FileContent → Bool
  | .absent => false
  | _ => true

/-- open followed by json.load, before any handler: a missing file raises
FileNotFoundError and unparseable content raises json.JSONDecodeError. -/
def readAndParse : FileContent → Except PyError (List (String × CompletionRecord))
  | .absent => .error .fileNotFound
  | .malformed => .error .jsonDecodeError
  | .valid m => .ok m

/-- The body of load_json from src/src/utils/helpers.py with its two fault
handlers removed: the exists check short-circuits to the default, after
which the raw read can still fault. -/
def load_json_unhandled (fc : FileContent) : Except PyError (List (String × CompletionRecord)) :=
  if os_path_exists fc = false then .ok []
  else readAndParse fc

/-- From src/src/utils/helpers.py, load_json with default value the empty
mapping: the handlers for json.JSONDecodeError and for any other fault both
return the default, so the function is total. -/
def load_json (fc : FileContent) : List (String × CompletionRecord) :=
  match load_json_unhandled fc with
  | .ok m => m
  | .error .jsonDecodeError => []
  | .error _ => []

/-- From src/src/airdrop.py, `AirdropManager._load_completed_airdrops`: exists
check, then a handler for json.JSONDecodeError and FileNotFoundError that
returns the empty mapping. -/
def load_completed_airdrops (fc : FileContent) : List (String × CompletionRecord) :=
  if os_path_exists fc = false then []
  else
    match readAndParse fc with
    | .ok m => m
    | .error .jsonDecodeError => []
    | .error .fileNotFound => []

/-- Python dict assignment d[k] = v on an insertion-ordered association
list: updating an existing key keeps its position, a new key is appended. -/
def dictInsert (m : List (String × CompletionRecord)) (k : String) (v : CompletionRecord) :
    List (String × CompletionRecord) :=
  match m with
  | [] => [(k, v)]
  | (k0, v0) :: rest => if k0 = k then (k, v) :: rest else (k0, v0) :: dictInsert rest k v

/-- From src/src/utils/helpers.py, save_json: a full rewrite of the backing
document; returns the success boolean paired with the new file content. -/
def save_json (m : List (String × CompletionRecord)) : Bool × FileContent :=
  (true, .valid m)

/-- From src/src/utils/helpers.py, get_completed_airdrops. -/
def get_completed_airdrops (fc : FileContent) : List (String × CompletionRecord) :=
  load_json fc

/-- From src/src/utils/helpers.py, mark_airdrop_completed: load the store,
assign the record carrying the strftime timestamp and the given status under
the campaign name, and rewrite the document in full. -/
def mark_airdrop_completed (fc : FileContent) (airdrop_name status : String) (now : Tm) :
    Bool × FileContent :=
  let completed := get_completed_airdrops fc
  let completed2 := dictInsert completed airdrop_name ⟨strftimeYmdHMS now, status⟩
  save_json completed2

/-- Environment of one OpenAI call: the API key found in the process
environment and the outcome the ChatCompletion request would have. -/
structure AIEnv where
  apiKey : Option String
  callResult : Except String String

/-- From src/src/utils/ai.py, setup_openai: false when the key is missing or
empty (Python truthiness of os.getenv), true otherwise. -/
def setup_openai (env : AIEnv) : Bool :=
  match env.apiKey with
  | none => false
  | some k => !(k == "")

/-- From src/src/utils/ai.py, get_ai_assistance: a fixed placeholder when the
key is missing; otherwise the response text, with any fault of the request
caught and turned into an error string. Total: no path raises. -/
def get_ai_assistance (env : AIEnv) : String :=
  if setup_openai env = false then "AI assistance unavailable - missing API key"
  else
    match env.callResult with
    | .ok r => r
    | .error e => "Error getting AI assistance: " ++ e

/-- Selenium window state: the open handles and the focused handle. -/
structure BrowserState where
  handles : List String
  current : String
deriving DecidableEq, Repr

/-- From src/src/browser.py, `BrowserManager.new_tab_action`: remember the
current window; switch to the first handle that differs from it, returning
None with the state untouched when there is none; run the callback with any
fault caught as a None result; close the focused tab when more than one
handle is open; switch back to the remembered window. The callbacks used in
this codebase only scroll, so a callback is modelled by its outcome. -/
def new_tab_action (cb : Except String Bool) (st : BrowserState) :
    Option Bool × BrowserState :=
  let current_window := st.current
  match st.handles.find? (fun h => h != current_window) with
  | none => (none, st)
  | some new_window =>
    let result : Option Bool := match cb with | .ok v => some v | .error _ => none
    let handles2 := if st.handles.length > 1 then st.handles.erase new_window else st.handles
    (result, ⟨handles2, current_window⟩)

/-- One scraped task element together with what the selector lookups inside
it would find: its displayed text, whether the expand lookup hits an
unexpected fault, whether the completed marker is present, whether a
confirm/Verify/Done control is present, whether the marker would be present
if it were examined again after clicking that control, how many outbound
link controls the generic lookup finds, and the Telegram link if any. -/
structure TaskElement where
  text : String
  expandFault : Bool
  completedMarker : Bool
  confirmButton : Bool
  markerAfterConfirm : Bool
  linkButtons : Nat
  telegramButton : Option String
deriving DecidableEq, Repr

/-- From src/src/tasks/base.py, `BaseTask.expand_task`: clicking the expand
control when found, or finding none at all, both yield true; only an
unexpected fault during the lookup yields false. -/
def expand_task (te : TaskElement) : Bool :=
  if te.expandFault then false else true

/-- From src/src/tasks/base.py, `BaseTask.check_task_completion`: true when
the completed marker is present; otherwise true as soon as a
confirm/Verify/Done control is found and clicked, without examining the
marker again; false when both are absent. -/
def check_task_completion (te : TaskElement) : Bool :=
  if te.completedMarker then true
  else if te.confirmButton then true
  else false

/-- Modelled from the spec, section 4.3 step Verify: the verification step as
the specification words it, clicking the confirm control and then checking
the completed marker again before returning. Written only to compare with
check_task_completion, which is translated from the source. -/
def check_task_completion_spec (te : TaskElement) : Bool :=
  if te.completedMarker then true
  else if te.confirmButton then te.markerAfterConfirm
  else false

/-- Per-task environment: the state of the external collaborators while one
task runs (the AI call environment, the outcome of the secondary-tab
callback, and the window state after the action click). -/
structure TaskEnv where
  ai : AIEnv
  cb : Except String Bool
  bst : BrowserState

/-- From src/src/tasks/base.py, `BaseTask.complete_task`: expand the task,
find the outbound link controls (none found is a failure), click the first,
run the idle-browsing callback through new_tab_action with its result unused,
and return the verification check. -/
def base_complete_task (te : TaskElement) (env : TaskEnv) : Bool × BrowserState :=
  if expand_task te = false then (false, env.bst)
  else if te.linkButtons = 0 then (false, env.bst)
  else
    let r := new_tab_action env.cb env.bst
    (check_task_completion te, r.2)

/-- From src/src/tasks/telegram.py, `TelegramTask.complete_task`: expand the
task, find the Telegram link (its absence raises NoSuchElementException,
caught by the outer handler as false), request advisory text about it (the
result is only logged), run the manual-join callback through new_tab_action
with its result unused, and return the verification check. -/
def telegram_complete_task (te : TaskElement) (env : TaskEnv) : Bool × BrowserState :=
  if expand_task te = false then (false, env.bst)
  else
    match te.telegramButton with
    | none => (false, env.bst)
    | some _ =>
      let _info := get_ai_assistance env.ai
      let r := new_tab_action env.cb env.bst
      (check_task_completion te, r.2)

/-- Modelled from the spec: dispatch of one classified task. The body of
`AirdropManager.complete_all_tasks` is absent from src/src/airdrop.py (the
file ends right after the def line and its docstring), so the dispatch
follows the spec, section 4.5: classify with get_task_type, run the matching
strategy variant (chat-join or generic), and treat unknown types as
automatic failures. -/
def run_one_task (p : TaskElement × TaskEnv) : Bool :=
  if get_task_type p.1.text = "telegram" then (telegram_complete_task p.1 p.2).1
  else if get_task_type p.1.text = "visit" then (base_complete_task p.1 p.2).1
  else false

/-- Modelled from the spec: the body of `AirdropManager.complete_all_tasks`
is absent from src/src/airdrop.py, so this follows the spec, section 4.5:
run every mandatory task, aggregate a boolean all-tasks-succeeded, and call
mark_completed with status success when the aggregate holds and partial
otherwise. Returns the aggregate and the new store content. -/
def complete_all_tasks (now : Tm) (fc : FileContent) (airdrop_name : String)
    (tasks : List (TaskElement × TaskEnv)) : Bool × FileContent :=
  let allOk := tasks.all run_one_task
  let status := if allOk then "success" else "partial"
  (allOk, (mark_airdrop_completed fc airdrop_name status now).2)

/-- The empty string is a substring of every string, as in Python. -/
theorem substrB_empty (s : String) : substrB "" s = true := by
  unfold substrB
  show listContainsSeq [] s.data = true
  cases s.data with
  | nil => rfl
  | cons a t => rfl

/-- Lower-casing the empty string gives the empty string. -/
theorem strLower_empty : strLower "" = "" := rfl

/-- Every decimal digit character produced by Nat.digitChar on a value below
ten is a digit. -/
theorem digitChar_isDigit (m : Nat) (h : m < 10) : (Nat.digitChar m).isDigit = true := by
  interval_cases m <;> decide

/-- The strftime output used by the store is always a well-formed
dddd-dd-dd dd:dd:dd timestamp. -/
theorem strftime_wellformed (t : Tm) : isWellFormedTimestamp (strftimeYmdHMS t) = true := by
  have h : ∀ x : Nat, (Nat.digitChar (x % 10)).isDigit = true := fun x =>
    digitChar_isDigit (x % 10) (Nat.mod_lt x (by decide))
  simp [isWellFormedTimestamp, strftimeYmdHMS, pad4, pad2, h]

/-- Looking up a key right after a dict assignment returns the assigned
value. -/
theorem lookup_dictInsert (m : List (String × CompletionRecord)) (k : String)
    (v : CompletionRecord) : List.lookup k (dictInsert m k v) = some v := by
  induction m with
  | nil => simp [dictInsert, List.lookup]
  | cons kv rest ih =>
    obtain ⟨k0, v0⟩ := kv
    by_cases h : k0 = k
    · subst h
      simp [dictInsert, List.lookup]
    · have hbeq : (k == k0) = false := beq_eq_false_iff_ne.mpr (Ne.symm h)
      simp [dictInsert, h, List.lookup, hbeq, ih]

/-- A dict assignment to a key that is already bound keeps the mapping size
unchanged. -/
theorem length_dictInsert_of_lookup (m : List (String × CompletionRecord)) (k : String)
    (v w : CompletionRecord) (h : List.lookup k m = some w) :
    (dictInsert m k v).length = m.length := by
  induction m with
  | nil => simp [List.lookup] at h
  | cons kv rest ih =>
    obtain ⟨k0, v0⟩ := kv
    by_cases hk : k0 = k
    · subst hk
      simp [dictInsert]
    · have hbeq : (k == k0) = false := beq_eq_false_iff_ne.mpr (Ne.symm hk)
      have h2 : List.lookup k rest = some w := by
        simpa [List.lookup, hbeq] using h
      simp [dictInsert, hk, ih h2]

/-- Loading a parsed object returns exactly that object. -/
theorem load_json_valid (m : List (String × CompletionRecord)) :
    load_json (FileContent.valid m) = m := rfl

/-- Claim C2, counterexample: a task text whose lower-cased form contains
"telegram" as well as "visit" and "airdrop page" is classified "visit", not
"telegram", so the chat-join check is not the one evaluated first. -/
theorem get_task_type_counterexample :
    substrB "telegram" (strLower "Visit the airdrop page and join our Telegram") = true ∧
    substrB "visit" (strLower "Visit the airdrop page and join our Telegram") = true ∧
    substrB "airdrop page" (strLower "Visit the airdrop page and join our Telegram") = true ∧
    get_task_type "Visit the airdrop page and join our Telegram" = "visit" ∧
    ("visit" : String) ≠ "telegram" := by
  decide

/-- Claim C2 (amended): for every task text that, after lower-casing,
contains the substring "telegram" and also contains both "visit" and
"airdrop page", the classifier returns the visit tag, because the visit
check is evaluated before the chat-join check in get_task_type. -/
theorem get_task_type_both_gives_visit (s : String)
    (_ht : substrB "telegram" (strLower s) = true)
    (hv : substrB "visit" (strLower s) = true)
    (hp : substrB "airdrop page" (strLower s) = true) :
    get_task_type s = "visit" := by
  simp [get_task_type, hv, hp]

/-- Claim C2 witness at a concrete task text containing all three
substrings. -/
theorem get_task_type_both_gives_visit_witness :
    get_task_type "visit the airdrop page and find our telegram" = "visit" :=
  get_task_type_both_gives_visit "visit the airdrop page and find our telegram"
    (by decide) (by decide) (by decide)

/-- Claim C4, counterexample: marker absent, confirm control present, marker
still absent after the confirm click. The source verify step returns true
right after clicking the confirm control, while the behaviour the claim
describes, which examines the marker again before returning, yields false. -/
theorem check_task_completion_counterexample :
    check_task_completion ⟨"t", false, false, true, false, 0, none⟩ = true ∧
    check_task_completion_spec ⟨"t", false, false, true, false, 0, none⟩ = false := by
  decide

/-- Claim C4 (amended): the verify step returns true when the completed
marker is present; when the marker is absent it returns true as soon as a
confirm/verify/done control is present, which it clicks, without examining
the marker again; and it returns false exactly when both the marker and the
confirm control are absent. -/
theorem check_task_completion_eq (te : TaskElement) :
    check_task_completion te = (te.completedMarker || te.confirmButton) := by
  rcases te with ⟨t, ef, cm, cf, mac, lb, tb⟩
  cases cm <;> cases cf <;> rfl

/-- Claim C7: the completion-store load never raises: every fault of the raw
read is absorbed by a handler into the default empty mapping, a missing file
yields the empty mapping, and malformed content yields the empty mapping;
the manager-side loader behaves the same way. -/
theorem load_json_never_raises :
    (∀ fc e, load_json_unhandled fc = Except.error e → load_json fc = []) ∧
    load_json FileContent.absent = [] ∧
    load_json FileContent.malformed = [] ∧
    load_completed_airdrops FileContent.absent = [] ∧
    load_completed_airdrops FileContent.malformed = [] := by
  refine ⟨?_, rfl, rfl, rfl, rfl⟩
  intro fc e h
  cases fc with
  | absent => rfl
  | malformed => rfl
  | valid m => simp [load_json_unhandled, os_path_exists, readAndParse] at h

/-- Claim C7 witness: the loader applied to a malformed document, with the
raw read faulting with a decode error, returns the empty mapping. -/
theorem load_json_never_raises_witness : load_json FileContent.malformed = [] :=
  load_json_never_raises.1 FileContent.malformed PyError.jsonDecodeError rfl

/-- Claim C3, counterexample: candidates Beta and Gamma, requested name
"zeta" matching neither, but Beta already recorded in the completion store:
selection returns none rather than the first-listed name. -/
theorem select_airdrop_counterexample :
    substrB (strLower "zeta") (strLower "Beta") = false ∧
    substrB (strLower "zeta") (strLower "Gamma") = false ∧
    select_airdrop ["Beta"] (some "zeta") [⟨"Beta", true⟩, ⟨"Gamma", true⟩] =
      (none, ["Beta"]) := by
  decide

/-- Claim C3 (amended): for every non-empty candidate list and every
requested name whose lower-cased form is a substring of no candidate name,
selection falls back to the first-listed candidate and returns its name,
provided that candidate is not already in the completion store and clicking
its element succeeds. -/
theorem select_airdrop_fallback_first (completed : List String) (req : String)
    (first : Airdrop) (rest : List Airdrop)
    (hmatch : ∀ a ∈ first :: rest, substrB (strLower req) (strLower a.name) = false)
    (hdone : completed.contains first.name = false)
    (hclick : first.clickOk = true) :
    select_airdrop completed (some req) (first :: rest) = (some first.name, completed) := by
  have hni : first.name ∉ completed := by simpa using hdone
  by_cases hreq : req = ""
  · exfalso
    have h := hmatch first (List.mem_cons_self first rest)
    rw [hreq, strLower_empty, substrB_empty] at h
    exact Bool.noConfusion h
  · have hfind :
        List.find? (fun (a : Airdrop) => substrB (strLower req) (strLower a.name))
          (first :: rest) = none := by
      apply List.find?_eq_none.mpr
      intro a ha
      simp [hmatch a ha]
    simp [select_airdrop, hreq, hfind, hni, hclick]

/-- Claim C3 witness: empty store, candidates Beta then Gamma, requested
name zeta matching neither: the fallback selects Beta. -/
theorem select_airdrop_fallback_first_witness :
    select_airdrop [] (some "zeta") [⟨"Beta", true⟩, ⟨"Gamma", true⟩] = (some "Beta", []) :=
  select_airdrop_fallback_first [] "zeta" ⟨"Beta", true⟩ [⟨"Gamma", true⟩]
    (by decide) (by decide) (by decide)

/-- Claim C5: a campaign name already present in the completion store is
never selected: with that name as the only candidate, selection returns none
for every requested name, and the completion store is returned unchanged. -/
theorem select_airdrop_skips_completed (completed : List String) (name : String)
    (ck : Bool) (requested : Option String)
    (hdone : completed.contains name = true) :
    select_airdrop completed requested [⟨name, ck⟩] = (none, completed) := by
  have hmem : name ∈ completed := by simpa using hdone
  cases requested with
  | none => simp [select_airdrop, hmem]
  | some req =>
    by_cases hreq : req = ""
    · simp [select_airdrop, hreq, hmem]
    · cases hfind :
        List.find? (fun (a : Airdrop) => substrB (strLower req) (strLower a.name))
          ([⟨name, ck⟩] : List Airdrop) with
      | none => simp [select_airdrop, hreq, hfind, hmem]
      | some a =>
        have ha : a = ⟨name, ck⟩ :=
          List.mem_singleton.mp (List.mem_of_find?_eq_some hfind)
        subst ha
        simp [select_airdrop, hreq, hfind, hmem]

/-- Claim C5 witness: AlphaDrop already recorded and the sole candidate, no
requested name: selection returns none and the store keys are unchanged. -/
theorem select_airdrop_skips_completed_witness :
    select_airdrop ["AlphaDrop"] none [⟨"AlphaDrop", true⟩] = (none, ["AlphaDrop"]) :=
  select_airdrop_skips_completed ["AlphaDrop"] "AlphaDrop" true none (by decide)

/-- Claim C6: for every store content, campaign name, status and clock
reading, mark_airdrop_completed followed by a fresh load yields a record for
that name with the same status and a well-formed timestamp; marking the same
name again with a different status overwrites the entry, leaving the size of
the mapping unchanged. -/
theorem mark_completed_load_roundtrip (fc : FileContent) (name s1 s2 : String)
    (t1 t2 : Tm) :
    List.lookup name (load_json (mark_airdrop_completed fc name s1 t1).2) =
      some ⟨strftimeYmdHMS t1, s1⟩ ∧
    isWellFormedTimestamp (strftimeYmdHMS t1) = true ∧
    List.lookup name
        (load_json (mark_airdrop_completed (mark_airdrop_completed fc name s1 t1).2 name s2 t2).2) =
      some ⟨strftimeYmdHMS t2, s2⟩ ∧
    (load_json (mark_airdrop_completed (mark_airdrop_completed fc name s1 t1).2 name s2 t2).2).length =
      (load_json (mark_airdrop_completed fc name s1 t1).2).length := by
  refine ⟨?_, strftime_wellformed t1, ?_, ?_⟩
  · show List.lookup name (load_json (FileContent.valid
        (dictInsert (load_json fc) name ⟨strftimeYmdHMS t1, s1⟩))) = _
    rw [load_json_valid]
    exact lookup_dictInsert (load_json fc) name ⟨strftimeYmdHMS t1, s1⟩
  · show List.lookup name (load_json (FileContent.valid
        (dictInsert (load_json (FileContent.valid (dictInsert (load_json fc) name ⟨strftimeYmdHMS t1, s1⟩)))
          name ⟨strftimeYmdHMS t2, s2⟩))) = _
    rw [load_json_valid]
    exact lookup_dictInsert _ name ⟨strftimeYmdHMS t2, s2⟩
  · show (load_json (FileContent.valid
        (dictInsert (load_json (FileContent.valid (dictInsert (load_json fc) name ⟨strftimeYmdHMS t1, s1⟩)))
          name ⟨strftimeYmdHMS t2, s2⟩))).length = _
    rw [load_json_valid, load_json_valid]
    exact length_dictInsert_of_lookup _ name ⟨strftimeYmdHMS t2, s2⟩ ⟨strftimeYmdHMS t1, s1⟩
      (lookup_dictInsert (load_json fc) name ⟨strftimeYmdHMS t1, s1⟩)

/-- Claim C8: a fault of the external text-generation call never aborts the
run: with a missing key, get_ai_assistance returns the fixed placeholder;
with the key present and a faulting request it returns an error string
instead of raising; and a chat-join task whose advisory call faults (or
succeeds) still returns the verification check rather than short-circuiting
to failure. -/
theorem ai_fault_never_aborts (r : Except String String) (e k : String)
    (te : TaskElement) (env : TaskEnv) (url : String)
    (hk : k ≠ "")
    (hx : te.expandFault = false) (hbtn : te.telegramButton = some url) :
    get_ai_assistance ⟨none, r⟩ = "AI assistance unavailable - missing API key" ∧
    get_ai_assistance ⟨some k, Except.error e⟩ = "Error getting AI assistance: " ++ e ∧
    (telegram_complete_task te env).1 = check_task_completion te := by
  refine ⟨rfl, ?_, ?_⟩
  · simp [get_ai_assistance, setup_openai, hk]
  · simp [telegram_complete_task, expand_task, hx, hbtn]

/-- Claim C8 witness at a concrete faulting call and a concrete chat-join
task element. -/
theorem ai_fault_never_aborts_witness :
    get_ai_assistance ⟨none, Except.ok "text"⟩ =
      "AI assistance unavailable - missing API key" ∧
    get_ai_assistance ⟨some "sk-key", Except.error "boom"⟩ =
      "Error getting AI assistance: " ++ "boom" ∧
    (telegram_complete_task ⟨"join our telegram", false, true, false, false, 0, some "t.me/x"⟩
        ⟨⟨some "sk-key", Except.error "boom"⟩, Except.error "tab fault", ⟨["m"], "m"⟩⟩).1 =
      check_task_completion ⟨"join our telegram", false, true, false, false, 0, some "t.me/x"⟩ :=
  ai_fault_never_aborts (Except.ok "text") "boom" "sk-key"
    ⟨"join our telegram", false, true, false, false, 0, some "t.me/x"⟩
    ⟨⟨some "sk-key", Except.error "boom"⟩, Except.error "tab fault", ⟨["m"], "m"⟩⟩
    "t.me/x" (by decide) rfl rfl

/-- Claim C9: on every exit path of new_tab_action over a primary window p,
possibly accompanied by one secondary window s — the callback returning
normally, the callback raising, or no new tab having opened — the focused
window at return is p and no handle other than p stays open. -/
theorem new_tab_action_no_leak (cb : Except String Bool) (st : BrowserState)
    (p s : String) (hc : st.current = p) (hs : s ≠ p)
    (hh : st.handles = [p] ∨ st.handles = [p, s] ∨ st.handles = [s, p]) :
    (new_tab_action cb st).2.current = p ∧
    ∀ h ∈ (new_tab_action cb st).2.handles, h = p := by
  obtain ⟨hl, cur⟩ := st
  simp only at hc hh
  subst hc
  have hsp : (s != cur) = true := by simp [hs]
  have hpp : (cur != cur) = false := by simp
  have hps : (cur == s) = false := beq_eq_false_iff_ne.mpr (Ne.symm hs)
  have hss : (s == s) = true := by simp
  rcases hh with h1 | h1 | h1 <;> subst h1 <;>
    simp [new_tab_action, List.find?, List.erase, hsp, hpp, hps, hss]

/-- Claim C9 witness: primary window with one secondary tab open and a
faulting callback: control returns to the primary window and only the
primary handle remains. -/
theorem new_tab_action_no_leak_witness :
    (new_tab_action (Except.error "boom") ⟨["main", "tab"], "main"⟩).2.current = "main" ∧
    ∀ h ∈ (new_tab_action (Except.error "boom") ⟨["main", "tab"], "main"⟩).2.handles,
      h = "main" :=
  new_tab_action_no_leak (Except.error "boom") ⟨["main", "tab"], "main"⟩ "main" "tab"
    rfl (by decide) (Or.inr (Or.inl rfl))

/-- Claim C10: when the expand step succeeds and at least one outbound link
control is found, the generic complete_task returns exactly the result of
the verification check, and that boolean is unaffected by the new-tab
environment — callback succeeding, callback raising, or no new tab open. -/
theorem base_complete_task_eq_check (te : TaskElement)
    (hx : te.expandFault = false) (hb : te.linkButtons ≠ 0) :
    (∀ env : TaskEnv, (base_complete_task te env).1 = check_task_completion te) ∧
    (∀ env1 env2 : TaskEnv,
      (base_complete_task te env1).1 = (base_complete_task te env2).1) := by
  have key : ∀ env : TaskEnv, (base_complete_task te env).1 = check_task_completion te := by
    intro env
    simp [base_complete_task, expand_task, hx, hb]
  exact ⟨key, fun e1 e2 => (key e1).trans (key e2).symm⟩

/-- Claim C10 witness at a concrete task element, compared across a normal
callback, a raising callback, and a windowless state. -/
theorem base_complete_task_eq_check_witness :
    (base_complete_task ⟨"visit the airdrop page", false, true, false, false, 1, none⟩
        ⟨⟨none, Except.ok ""⟩, Except.error "tab fault", ⟨["m"], "m"⟩⟩).1 =
      check_task_completion ⟨"visit the airdrop page", false, true, false, false, 1, none⟩ ∧
    (base_complete_task ⟨"visit the airdrop page", false, true, false, false, 1, none⟩
        ⟨⟨none, Except.ok ""⟩, Except.error "tab fault", ⟨["m"], "m"⟩⟩).1 =
      (base_complete_task ⟨"visit the airdrop page", false, true, false, false, 1, none⟩
        ⟨⟨none, Except.ok ""⟩, Except.ok true, ⟨["m", "t"], "m"⟩⟩).1 :=
  ⟨(base_complete_task_eq_check ⟨"visit the airdrop page", false, true, false, false, 1, none⟩
      rfl (by decide)).1 ⟨⟨none, Except.ok ""⟩, Except.error "tab fault", ⟨["m"], "m"⟩⟩,
   (base_complete_task_eq_check ⟨"visit the airdrop page", false, true, false, false, 1, none⟩
      rfl (by decide)).2 ⟨⟨none, Except.ok ""⟩, Except.error "tab fault", ⟨["m"], "m"⟩⟩
      ⟨⟨none, Except.ok ""⟩, Except.ok true, ⟨["m", "t"], "m"⟩⟩⟩

/-- Claim C1: the orchestrated task run ends by recording the campaign with
status success exactly when every task verified and partial otherwise;
concretely, from an empty store with single candidate AlphaDrop and no
requested name, selection picks AlphaDrop, and a run in which all tasks
verify leaves a success record for AlphaDrop in the store. -/
theorem complete_all_tasks_records (now : Tm) (fc : FileContent) (name : String)
    (tasks : List (TaskElement × TaskEnv)) :
    List.lookup name (load_json (complete_all_tasks now fc name tasks).2) =
      some ⟨strftimeYmdHMS now, if tasks.all run_one_task then "success" else "partial"⟩ ∧
    select_airdrop [] none [⟨"AlphaDrop", true⟩] = (some "AlphaDrop", []) ∧
    (tasks.all run_one_task = true →
      List.lookup "AlphaDrop"
          (load_json (complete_all_tasks now FileContent.absent "AlphaDrop" tasks).2) =
        some ⟨strftimeYmdHMS now, "success"⟩) := by
  refine ⟨?_, by decide, ?_⟩
  · show List.lookup name (load_json (FileContent.valid
        (dictInsert (load_json fc) name
          ⟨strftimeYmdHMS now, if tasks.all run_one_task then "success" else "partial"⟩))) = _
    rw [load_json_valid]
    exact lookup_dictInsert _ _ _
  · intro hall
    show List.lookup "AlphaDrop" (load_json (FileContent.valid
        (dictInsert (load_json FileContent.absent) "AlphaDrop"
          ⟨strftimeYmdHMS now, if tasks.all run_one_task then "success" else "partial"⟩))) = _
    rw [load_json_valid, hall, if_pos rfl]
    exact lookup_dictInsert _ _ _

/-- Claim C1 witness: a concrete clock and one concrete chat-join task that
verifies, starting from the empty store with campaign AlphaDrop. -/
theorem complete_all_tasks_records_witness :
    List.lookup "AlphaDrop"
        (load_json (complete_all_tasks ⟨2026, 10, 12, 9, 30, 0⟩ FileContent.absent "AlphaDrop"
          [(⟨"join our telegram group", false, true, false, false, 0, some "t.me/alpha"⟩,
            ⟨⟨none, Except.ok "info"⟩, Except.ok true, ⟨["m"], "m"⟩⟩)]).2) =
      some ⟨strftimeYmdHMS ⟨2026, 10, 12, 9, 30, 0⟩, "success"⟩ :=
  (complete_all_tasks_records ⟨2026, 10, 12, 9, 30, 0⟩ FileContent.absent "AlphaDrop"
    [(⟨"join our telegram group", false, true, false, false, 0, some "t.me/alpha"⟩,
      ⟨⟨none, Except.ok "info"⟩, Except.ok true, ⟨["m"], "m"⟩⟩)]).2.2 (by decide)
